import Mathlib

/-!
Verification of the watchlichesstv stream-to-board reducer
(src/src/lichess.rs) against its natural-language specification.

The Rust source is shallowly embedded: machine integers (`u32`, bytes)
become `Nat`, fallible operations become `Option`, and a Rust panic
(`unwrap` on a failed `Result`/`Option`) is modelled as the value `none`
of the embedding function, since a panic aborts the per-chunk pipeline
with no resulting state.

External trusted collaborators (the `fen` notation-parsing crate,
`serde_json`, and UTF-8 validation from `std::str::from_utf8`) are
modelled from the specification's description of their contracts; the
repository's own code (`LichessTV::new`, `LichessTV::write`,
`LichessTV::draw_chess_board`) is translated line by line.
-/

set_option maxRecDepth 10000

namespace WatchLichessTV

/-! ## Data model (src/src/lichess.rs lines 15-75) -/

/-- `PlayerKind` (lichess.rs lines 15-20): lowercase-renamed enum with
variants `black` and `white`. -/
inductive PlayerKind
  | Black
  | White
deriving DecidableEq, Repr

/-- `fen::Color`: color of a chess piece, from the external notation
parser's data model. -/
inductive Color
  | White
  | Black
deriving DecidableEq, Repr

/-- `fen::PieceKind`: kind of a chess piece, from the external notation
parser's data model. -/
inductive PieceKind
  | Pawn
  | Knight
  | Bishop
  | Rook
  | Queen
  | King
deriving DecidableEq, Repr

/-- `fen::Piece`: a piece with a kind and a color. -/
structure Piece where
  kind : PieceKind
  color : Color
deriving DecidableEq, Repr

/-- `fen::BoardState`: the parsed position. Only the `pieces` field is
read by the repository (64 rank-major entries, a8..h8, a7..h7, ..., per
the specification's data model). -/
structure BoardState where
  pieces : List (Option Piece)
deriving DecidableEq, Repr

/-- `User` (lichess.rs lines 59-64). -/
structure User where
  name : String
  title : Option String
  id : String
deriving DecidableEq, Repr

/-- `Player` (lichess.rs lines 51-57). -/
structure Player where
  color : PlayerKind
  user : User
  rating : Nat
  seconds : Nat
deriving DecidableEq, Repr

/-- `FeaturedTVGameSummary` (lichess.rs lines 32-38). -/
structure FeaturedTVGameSummary where
  id : String
  orientation : PlayerKind
  players : List Player
  fen : String
deriving DecidableEq, Repr

/-- `FeaturedTVGameUpdate` (lichess.rs lines 40-49); serde renames
`lm`/`wc`/`bc` to `last_move`/`white_clock`/`black_clock`. -/
structure FeaturedTVGameUpdate where
  fen : String
  last_move : String
  white_clock : Nat
  black_clock : Nat
deriving DecidableEq, Repr

/-- `FeaturedTVGameFeed` (lichess.rs lines 23-30): adjacently tagged
union, tag field `t` (values `featured` / `fen`), content field `d`. -/
inductive FeaturedTVGameFeed
  | FeaturedTVGameSummary (s : FeaturedTVGameSummary)
  | FeaturedTVGameUpdate (u : FeaturedTVGameUpdate)
deriving DecidableEq, Repr

/-- `curl::easy::WriteError`: the error type of `Handler::write`; the
repository never constructs a value of it. -/
inductive WriteError
  | Pause
deriving DecidableEq, Repr

/-- `LichessTV` (lichess.rs lines 66-75), without the `nc_board_plane`
drawing handle (a side-effecting surface, not part of the reconciled
game state). -/
structure LichessTV where
  players : List Player
  last_move : String
  board : BoardState
  board_orientation : PlayerKind
  white_clock : Nat
  black_clock : Nat
deriving DecidableEq, Repr

/-! ## Modelled notation parser (external `fen` crate)

Modelled from the spec: the external notation parser ("a trusted library
that turns a position string into a square-indexed board") parses
"standard piece-placement text (ranks 8→1, files a→h, digits =
consecutive empty squares, `/` rank separator)". The spec requires the
strings suffixed with `" w c - 1 1"` / `" c - 1 1"` to parse whenever
the placement field is well-formed, so the fields after the first space
are accepted leniently. -/

/-- Piece letter of the placement field: uppercase = White, lowercase =
Black. -/
def pieceOfChar : Char → Option Piece
  | 'P' => some ⟨PieceKind.Pawn, Color.White⟩
  | 'N' => some ⟨PieceKind.Knight, Color.White⟩
  | 'B' => some ⟨PieceKind.Bishop, Color.White⟩
  | 'R' => some ⟨PieceKind.Rook, Color.White⟩
  | 'Q' => some ⟨PieceKind.Queen, Color.White⟩
  | 'K' => some ⟨PieceKind.King, Color.White⟩
  | 'p' => some ⟨PieceKind.Pawn, Color.Black⟩
  | 'n' => some ⟨PieceKind.Knight, Color.Black⟩
  | 'b' => some ⟨PieceKind.Bishop, Color.Black⟩
  | 'r' => some ⟨PieceKind.Rook, Color.Black⟩
  | 'q' => some ⟨PieceKind.Queen, Color.Black⟩
  | 'k' => some ⟨PieceKind.King, Color.Black⟩
  | _ => none

/-- Squares denoted by one rank of the placement field: a digit stands
for that many empty squares, a piece letter for one occupied square. -/
def rankSquares : List Char → Option (List (Option Piece))
  | [] => some []
  | c :: rest =>
    if '1' ≤ c ∧ c ≤ '8' then
      (rankSquares rest).map fun t => List.replicate (c.toNat - '0'.toNat) none ++ t
    else
      match pieceOfChar c with
      | some p => (rankSquares rest).map fun t => some p :: t
      | none => none

/-- One rank of the placement field must describe exactly 8 files. -/
def parseRank (cs : List Char) : Option (List (Option Piece)) :=
  (rankSquares cs).bind fun sq => if sq.length = 8 then some sq else none

/-- Split a character list on a separator character. -/
def splitOnChar (sep : Char) : List Char → List (List Char)
  | [] => [[]]
  | c :: cs =>
    let r := splitOnChar sep cs
    if c = sep then [] :: r
    else
      match r with
      | g :: gs => (c :: g) :: gs
      | [] => [[c]]

/-- Modelled from the spec: `fen::BoardState::from_fen`. Parses the
piece-placement field (text before the first space) into 64 rank-major
squares; remaining fields (side to move, castling, en passant, move
counters) are accepted leniently, as the spec's synthetic suffixes
require. -/
def fromFenM (s : String) : Option BoardState :=
  let placement := s.data.takeWhile fun c => c ≠ ' '
  let ranks := splitOnChar '/' placement
  if ranks.length = 8 then
    (ranks.mapM parseRank).map fun rs => ⟨rs.flatten⟩
  else none

/-! ## Modelled UTF-8 validation (`std::str::from_utf8`, lichess.rs line 166)

Modelled from the spec: the chunk "must first validate UTF-8"; the table
below is the standard well-formed byte-sequence table (RFC 3629):
overlong encodings, surrogates and code points above U+10FFFF are
rejected, exactly as Rust's `std::str::from_utf8` does. Bytes are `Nat`
values; anything outside 0..255 fails the table checks. -/

/-- A UTF-8 continuation byte lies in `0x80..0xBF`. -/
def contOk (b : Nat) : Bool := 0x80 ≤ b && b ≤ 0xBF

/-- Decode a byte list as UTF-8 text, or fail on the first ill-formed
sequence. -/
def utf8Decode : List Nat → Option (List Char)
  | [] => some []
  | b :: bs =>
    if b < 0x80 then
      (utf8Decode bs).map fun t => Char.ofNat b :: t
    else if 0xC2 ≤ b && b ≤ 0xDF then
      match bs with
      | b1 :: bs1 =>
        if contOk b1 then
          (utf8Decode bs1).map fun t =>
            Char.ofNat ((b - 0xC0) * 0x40 + (b1 - 0x80)) :: t
        else none
      | [] => none
    else if 0xE0 ≤ b && b ≤ 0xEF then
      match bs with
      | b1 :: b2 :: bs2 =>
        let lo1 := if b = 0xE0 then 0xA0 else 0x80
        let hi1 := if b = 0xED then 0x9F else 0xBF
        if lo1 ≤ b1 && b1 ≤ hi1 && contOk b2 then
          (utf8Decode bs2).map fun t =>
            Char.ofNat ((b - 0xE0) * 0x1000 + (b1 - 0x80) * 0x40 + (b2 - 0x80)) :: t
        else none
      | _ => none
    else if 0xF0 ≤ b && b ≤ 0xF4 then
      match bs with
      | b1 :: b2 :: b3 :: bs3 =>
        let lo1 := if b = 0xF0 then 0x90 else 0x80
        let hi1 := if b = 0xF4 then 0x8F else 0xBF
        if lo1 ≤ b1 && b1 ≤ hi1 && contOk b2 && contOk b3 then
          (utf8Decode bs3).map fun t =>
            Char.ofNat ((b - 0xF0) * 0x40000 + (b1 - 0x80) * 0x1000
              + (b2 - 0x80) * 0x40 + (b3 - 0x80)) :: t
        else none
      | _ => none
    else none

/-- Byte encoding of an ASCII-only string (used to build concrete
chunks; agrees with UTF-8 on ASCII text). -/
def asciiBytes (s : String) : List Nat := s.data.map Char.toNat

/-! ## Modelled JSON decoding (`serde_json::from_str`, lichess.rs lines 168-169)

Modelled from the spec: the wire format is "newline-delimited text
records, each a JSON object with a string discriminator field (`t`) and
a nested payload object (`d`)"; all numeric fields of the two payload
shapes are non-negative integers, so integer numerals suffice.
`serde_json::from_str` accepts surrounding whitespace but rejects any
trailing non-whitespace after the single top-level value. -/

/-- JSON values. -/
inductive Json
  | null
  | bool (b : Bool)
  | num (n : Int)
  | str (s : String)
  | arr (elems : List Json)
  | obj (fields : List (String × Json))

/-- JSON insignificant whitespace. -/
def isWs (c : Char) : Bool := c = ' ' || c = '\t' || c = '\n' || c = '\r'

/-- Drop leading JSON whitespace. -/
def skipWs : List Char → List Char
  | [] => []
  | c :: cs => if isWs c then skipWs cs else c :: cs

/-- Value of a hexadecimal digit. -/
def hexVal (c : Char) : Option Nat :=
  if '0' ≤ c ∧ c ≤ '9' then some (c.toNat - '0'.toNat)
  else if 'a' ≤ c ∧ c ≤ 'f' then some (c.toNat - 'a'.toNat + 10)
  else if 'A' ≤ c ∧ c ≤ 'F' then some (c.toNat - 'A'.toNat + 10)
  else none

/-- A simple (one-character) string escape. -/
def escChar : Char → Option Char
  | '"' => some '"'
  | '\\' => some '\\'
  | '/' => some '/'
  | 'b' => some (Char.ofNat 8)
  | 'f' => some (Char.ofNat 12)
  | 'n' => some '\n'
  | 'r' => some '\r'
  | 't' => some '\t'
  | _ => none

/-- Body of a JSON string after the opening quote: returns the decoded
content and the input after the closing quote. -/
def parseStrBody : List Char → Option (List Char × List Char)
  | [] => none
  | '"' :: rest => some ([], rest)
  | '\\' :: 'u' :: h1 :: h2 :: h3 :: h4 :: rest =>
    (hexVal h1).bind fun v1 =>
      (hexVal h2).bind fun v2 =>
        (hexVal h3).bind fun v3 =>
          (hexVal h4).bind fun v4 =>
            let n := ((v1 * 16 + v2) * 16 + v3) * 16 + v4
            if 0xD800 ≤ n ∧ n < 0xE000 then none
            else
              (parseStrBody rest).map fun p => (Char.ofNat n :: p.1, p.2)
  | '\\' :: e :: rest =>
    (escChar e).bind fun c =>
      (parseStrBody rest).map fun p => (c :: p.1, p.2)
  | c :: rest =>
    if c.toNat < 0x20 then none
    else (parseStrBody rest).map fun p => (c :: p.1, p.2)

/-- Numeric value of a digit list. -/
def digitsToNat (ds : List Char) : Nat :=
  ds.foldl (fun acc c => acc * 10 + (c.toNat - '0'.toNat)) 0

/-- An unsigned integer numeral; fails when followed by a fraction or
exponent marker (the wire format carries only integers). -/
def parseNatTok (cs : List Char) : Option (Nat × List Char) :=
  let ds := cs.takeWhile fun c => c.isDigit
  let rest := cs.dropWhile fun c => c.isDigit
  if ds.isEmpty then none
  else
    match rest with
    | c :: _ => if c = '.' ∨ c = 'e' ∨ c = 'E' then none else some (digitsToNat ds, rest)
    | [] => some (digitsToNat ds, rest)

/-- An optionally negated integer numeral. -/
def parseNumTok : List Char → Option (Int × List Char)
  | '-' :: rest => (parseNatTok rest).map fun p => (-(p.1 : Int), p.2)
  | cs => (parseNatTok cs).map fun p => ((p.1 : Int), p.2)

mutual

/-- One JSON value (fuel-indexed recursive descent); returns the value
and the unconsumed input. -/
def parseVal : Nat → List Char → Option (Json × List Char)
  | 0, _ => none
  | fuel + 1, cs =>
    match skipWs cs with
    | 'n' :: 'u' :: 'l' :: 'l' :: rest => some (Json.null, rest)
    | 't' :: 'r' :: 'u' :: 'e' :: rest => some (Json.bool true, rest)
    | 'f' :: 'a' :: 'l' :: 's' :: 'e' :: rest => some (Json.bool false, rest)
    | '"' :: rest => (parseStrBody rest).map fun p => (Json.str (String.mk p.1), p.2)
    | '\x7b' :: rest =>
      (match skipWs rest with
       | '\x7d' :: r2 => some (Json.obj [], r2)
       | r2 => (parseMembers fuel r2).map fun p => (Json.obj p.1, p.2))
    | '[' :: rest =>
      (match skipWs rest with
       | ']' :: r2 => some (Json.arr [], r2)
       | r2 => (parseElems fuel r2).map fun p => (Json.arr p.1, p.2))
    | rest => (parseNumTok rest).map fun p => (Json.num p.1, p.2)

/-- One or more `"key": value` members, up to and including the closing
brace. -/
def parseMembers : Nat → List Char → Option (List (String × Json) × List Char)
  | 0, _ => none
  | fuel + 1, cs =>
    match skipWs cs with
    | '"' :: rest =>
      (parseStrBody rest).bind fun kp =>
        match skipWs kp.2 with
        | ':' :: r2 =>
          (parseVal fuel r2).bind fun vp =>
            (match skipWs vp.2 with
             | ',' :: r4 =>
               (parseMembers fuel r4).map fun mp =>
                 ((String.mk kp.1, vp.1) :: mp.1, mp.2)
             | '\x7d' :: r4 => some ([(String.mk kp.1, vp.1)], r4)
             | _ => none)
        | _ => none
    | _ => none

/-- One or more array elements, up to and including the closing
bracket. -/
def parseElems : Nat → List Char → Option (List Json × List Char)
  | 0, _ => none
  | fuel + 1, cs =>
    (parseVal fuel cs).bind fun vp =>
      match skipWs vp.2 with
      | ',' :: r2 => (parseElems fuel r2).map fun ep => (vp.1 :: ep.1, ep.2)
      | ']' :: r2 => some ([vp.1], r2)
      | _ => none

end

/-- A whole JSON document: exactly one top-level value, surrounding
whitespace tolerated (as `serde_json::from_str` does). -/
def parseJsonDoc (cs : List Char) : Option Json :=
  (parseVal (cs.length + 2) cs).bind fun p =>
    if (skipWs p.2).isEmpty then some p.1 else none

/-- First binding of a key in a JSON object's field list. -/
def lookupField (k : String) : List (String × Json) → Option Json
  | [] => none
  | f :: rest => if f.1 = k then some f.2 else lookupField k rest

/-- A JSON string value. -/
def asStr : Json → Option String
  | Json.str s => some s
  | _ => none

/-- A JSON `u32` value: an integer in `0 .. 2^32`. -/
def asU32 : Json → Option Nat
  | Json.num n => if 0 ≤ n ∧ n < 4294967296 then some n.toNat else none
  | _ => none

/-- The field list of a JSON object. -/
def asObjFields : Json → Option (List (String × Json))
  | Json.obj fs => some fs
  | _ => none

/-- The element list of a JSON array. -/
def asArr : Json → Option (List Json)
  | Json.arr es => some es
  | _ => none

/-- serde model: `PlayerKind` deserializes from the lowercase variant
names `"white"` / `"black"`. -/
def decodePlayerKind : Json → Option PlayerKind
  | Json.str s =>
    if s = "white" then some PlayerKind.White
    else if s = "black" then some PlayerKind.Black
    else none
  | _ => none

/-- serde model: `User` from an object with `name`, optional `title`,
`id` (a missing or null `Option` field becomes `none`). -/
def decodeUser (j : Json) : Option User :=
  (asObjFields j).bind fun fs =>
    ((lookupField "name" fs).bind asStr).bind fun name =>
      ((lookupField "id" fs).bind asStr).bind fun id =>
        (match lookupField "title" fs with
         | none => some none
         | some Json.null => some none
         | some (Json.str t) => some (some t)
         | some _ => none).map fun title =>
          { name := name, title := title, id := id }

/-- serde model: `Player` from an object with `color`, `user`,
`rating`, `seconds`. -/
def decodePlayer (j : Json) : Option Player :=
  (asObjFields j).bind fun fs =>
    ((lookupField "color" fs).bind decodePlayerKind).bind fun color =>
      ((lookupField "user" fs).bind decodeUser).bind fun user =>
        ((lookupField "rating" fs).bind asU32).bind fun rating =>
          ((lookupField "seconds" fs).bind asU32).map fun seconds =>
            { color := color, user := user, rating := rating, seconds := seconds }

/-- serde model: `FeaturedTVGameSummary` payload. -/
def decodeSummary (j : Json) : Option FeaturedTVGameSummary :=
  (asObjFields j).bind fun fs =>
    ((lookupField "id" fs).bind asStr).bind fun id =>
      ((lookupField "orientation" fs).bind decodePlayerKind).bind fun orientation =>
        ((lookupField "players" fs).bind asArr).bind fun pjs =>
          (pjs.mapM decodePlayer).bind fun players =>
            ((lookupField "fen" fs).bind asStr).map fun fen =>
              { id := id, orientation := orientation, players := players, fen := fen }

/-- serde model: `FeaturedTVGameUpdate` payload (`lm`, `wc`, `bc`). -/
def decodeUpdate (j : Json) : Option FeaturedTVGameUpdate :=
  (asObjFields j).bind fun fs =>
    ((lookupField "fen" fs).bind asStr).bind fun fen =>
      ((lookupField "lm" fs).bind asStr).bind fun lm =>
        ((lookupField "wc" fs).bind asU32).bind fun wc =>
          ((lookupField "bc" fs).bind asU32).map fun bc =>
            { fen := fen, last_move := lm, white_clock := wc, black_clock := bc }

/-- The discriminator of a decoded line: the string value of the `t`
field of the top-level object, when there is one. -/
def tagOf (j : Json) : Option String :=
  match j with
  | Json.obj fs =>
    match lookupField "t" fs with
    | some (Json.str t) => some t
    | _ => none
  | _ => none

/-- serde model: the adjacently tagged `FeaturedTVGameFeed` — read tag
field `t`, select the payload schema for content field `d`; any
discriminator other than `featured` / `fen` is an unknown-variant
error. -/
def feedFromJson (j : Json) : Option FeaturedTVGameFeed :=
  match j with
  | Json.obj fs =>
    match lookupField "t" fs with
    | some (Json.str t) =>
      (match lookupField "d" fs with
       | some d =>
         if t = "featured" then
           (decodeSummary d).map FeaturedTVGameFeed.FeaturedTVGameSummary
         else if t = "fen" then
           (decodeUpdate d).map FeaturedTVGameFeed.FeaturedTVGameUpdate
         else none
       | none => none)
    | _ => none
  | _ => none

/-- serde model: `serde_json::from_str::<FeaturedTVGameFeed>` on the
decoded chunk text. -/
def decodeFeed (cs : List Char) : Option FeaturedTVGameFeed :=
  (parseJsonDoc cs).bind feedFromJson

/-! ## `LichessTV::new` (lichess.rs lines 78-91) -/

/-- The fixed startup FEN string of `LichessTV::new`. -/
def startFen : String := "rnbqkbnr/pppppppp/8/8/8/8/PPPPPPPP/RNBQKBNR w KQkq - 0 1"

/-- `LichessTV::new`: the initial state; `none` models the startup
`unwrap` panic on a failed parse of the fixed FEN (which provably does
not happen). -/
def LichessTV.new? : Option LichessTV :=
  (fromFenM startFen).map fun b =>
    { board := b
      last_move := ""
      white_clock := 0
      black_clock := 0
      players := []
      board_orientation := PlayerKind.White }

/-! ## `Handler::write for LichessTV` (lichess.rs lines 164-193) -/

/-- The event-application part of `write` (lichess.rs lines 171-187),
parameterized by the external notation parser `fenP`
(`fen::BoardState::from_fen`).  A summary appends the literal
`" w c - 1 1"` to the event's fen text, parses it, and replaces
`board`, `board_orientation` and `players`; an update appends
`" c - 1 1"`, parses, and replaces `board`, `last_move`, `white_clock`
and `black_clock`.  `none` models the `unwrap` panic on a failed parse
(no field has been assigned at that point). -/
def applyFeed (fenP : String → Option BoardState) (st : LichessTV) :
    FeaturedTVGameFeed → Option LichessTV
  | FeaturedTVGameFeed.FeaturedTVGameSummary s =>
    match fenP (s.fen ++ " w c - 1 1") with
    | some b =>
      some { st with board := b, board_orientation := s.orientation, players := s.players }
    | none => none
  | FeaturedTVGameFeed.FeaturedTVGameUpdate u =>
    match fenP (u.fen ++ " c - 1 1") with
    | some b =>
      some { st with
              board := b
              last_move := u.last_move
              white_clock := u.white_clock
              black_clock := u.black_clock }
    | none => none

/-- `write` (lichess.rs lines 165-193): UTF-8-decode the whole chunk
(`unwrap`), JSON-decode the whole chunk text as one document
(`unwrap`), apply the decoded event (`unwrap` inside the match arms),
and return `Ok(data.len())`.  `none` models a panic at any of the three
`unwrap`s; the drawing side effects (erase + draw_chess_board) do not
touch the modelled state. -/
def write (fenP : String → Option BoardState) (st : LichessTV) (data : List Nat) :
    Option (LichessTV × Except WriteError Nat) :=
  (utf8Decode data).bind fun chars =>
    (decodeFeed chars).bind fun ev =>
      (applyFeed fenP st ev).map fun st' => (st', Except.ok data.length)

/-! ## `LichessTV::draw_chess_board` geometry (lichess.rs lines 93-161) -/

/-- The loop-body position update of `draw_chess_board` (lichess.rs
lines 104-110): at index `n`, when `n % 8 == 0` the row advances and
the column resets to `w / 2 - 12`, otherwise the column advances by 3.
The pair is `(row, column)`, as in `PositionOffset`. -/
def boardStep (w : Nat) (n : Nat) (p : Nat × Nat) : Nat × Nat :=
  if n % 8 = 0 then (p.1 + 1, w / 2 - 12) else (p.1, p.2 + 3)

/-- The `(row, column)` at which square `n` is drawn, starting from the
initial offset `(h / 2 - 4, w / 2 - 12)` (lichess.rs lines 98-102) and
applying the loop-body update once per index up to and including `n`. -/
def drawPos (w h : Nat) : Nat → Nat × Nat
  | 0 => boardStep w 0 (h / 2 - 4, w / 2 - 12)
  | n + 1 => boardStep w (n + 1) (drawPos w h n)

/-- The background channel of square `n` (lichess.rs lines 143-146), as
an RGB triple: `(n + n / 8) & 1` selects between the two fixed
colors. -/
def cellChannel (n : Nat) : Nat × Nat × Nat :=
  if ((n + n / 8) &&& 1) = 0 then (195, 160, 130) else (242, 225, 195)

/-! ## Concrete fixtures -/

/-- The (a8-first) back rank of one color. -/
def backRank (c : Color) : List (Option Piece) :=
  [some ⟨PieceKind.Rook, c⟩, some ⟨PieceKind.Knight, c⟩, some ⟨PieceKind.Bishop, c⟩,
   some ⟨PieceKind.Queen, c⟩, some ⟨PieceKind.King, c⟩, some ⟨PieceKind.Bishop, c⟩,
   some ⟨PieceKind.Knight, c⟩, some ⟨PieceKind.Rook, c⟩]

/-- A white pawn square. -/
def wP : Option Piece := some ⟨PieceKind.Pawn, Color.White⟩

/-- A black pawn square. -/
def bP : Option Piece := some ⟨PieceKind.Pawn, Color.Black⟩

/-- The 64 squares of the standard starting position, rank-major from
a8: black back rank, black pawns, 32 empty squares, white pawns, white
back rank. -/
def startPieces : List (Option Piece) :=
  backRank Color.Black ++ List.replicate 8 bP ++ List.replicate 32 none
    ++ List.replicate 8 wP ++ backRank Color.White

/-- The starting position after the single move e2e4. -/
def afterE4Pieces : List (Option Piece) :=
  backRank Color.Black ++ List.replicate 8 bP ++ List.replicate 16 none
    ++ [none, none, none, none, wP, none, none, none] ++ List.replicate 8 none
    ++ [wP, wP, wP, wP, none, wP, wP, wP] ++ backRank Color.White

/-- The initial reconciled state (the contents of `LichessTV::new`). -/
def defaultTV : LichessTV :=
  { board := ⟨startPieces⟩
    last_move := ""
    white_clock := 0
    black_clock := 0
    players := []
    board_orientation := PlayerKind.White }

/-- A well-formed Position Update wire line (one event). -/
def updLine1 : String :=
  "\x7b\"t\":\"fen\",\"d\":\x7b\"fen\":\"rnbqkbnr/pppppppp/8/8/4P3/8/PPPP1PPP/RNBQKBNR\",\"lm\":\"e2e4\",\"wc\":600,\"bc\":600\x7d\x7d"

/-- A second well-formed Position Update wire line. -/
def updLine2 : String :=
  "\x7b\"t\":\"fen\",\"d\":\x7b\"fen\":\"rnbqkbnr/pp1ppppp/8/2p5/4P3/8/PPPP1PPP/RNBQKBNR\",\"lm\":\"c7c5\",\"wc\":598,\"bc\":599\x7d\x7d"

/-- A wire line whose discriminator `endGame` is not a recognized event
kind. -/
def unknownTagLine : String := "\x7b\"t\":\"endGame\",\"d\":\x7b\x7d\x7d"

/-- Another wire line with an unrecognized discriminator. -/
def anotherTagLine : String := "\x7b\"t\":\"x\",\"d\":0\x7d"

/-- A proper prefix of a wire line: a chunk cut mid-event. -/
def partialLine : String := "\x7b\"t\":\"fen\""

/-- The event carried by `updLine1`. -/
def updEvent1 : FeaturedTVGameUpdate :=
  { fen := "rnbqkbnr/pppppppp/8/8/4P3/8/PPPP1PPP/RNBQKBNR"
    last_move := "e2e4"
    white_clock := 600
    black_clock := 600 }

/-- The event carried by `updLine2`. -/
def updEvent2 : FeaturedTVGameUpdate :=
  { fen := "rnbqkbnr/pp1ppppp/8/2p5/4P3/8/PPPP1PPP/RNBQKBNR"
    last_move := "c7c5"
    white_clock := 598
    black_clock := 599 }

/-- The state reached from `defaultTV` by applying `updEvent1`. -/
def updState1 : LichessTV :=
  { board := ⟨afterE4Pieces⟩
    last_move := "e2e4"
    white_clock := 600
    black_clock := 600
    players := []
    board_orientation := PlayerKind.White }

/-- A sample roster entry. -/
def samplePlayer : Player :=
  { color := PlayerKind.White
    user := { name := "alice", title := none, id := "alice" }
    rating := 2500
    seconds := 600 }

/-- A Game Summary event whose position text parses. -/
def sampleSummary : FeaturedTVGameSummary :=
  { id := "abc"
    orientation := PlayerKind.Black
    players := [samplePlayer]
    fen := "rnbqkbnr/pppppppp/8/8/8/8/PPPPPPPP/RNBQKBNR" }

/-- A Game Summary event whose position text does not parse. -/
def badSummary : FeaturedTVGameSummary :=
  { id := "abc"
    orientation := PlayerKind.Black
    players := []
    fen := "xx" }

/-- A notation parser that answers only the one query made for
`sampleSummary` (used to instantiate the parser-query theorem). -/
def gSpot : String → Option BoardState :=
  fun str => if str = sampleSummary.fen ++ " w c - 1 1" then fromFenM str else none

/-! ## Claims -/

/-- C7: a freshly constructed `LichessTV` holds the 64-entry standard
chess starting position (all 32 pieces on their standard starting
squares), White orientation, an empty roster, and an empty last-move
text. -/
theorem lichess_new_default_state :
    LichessTV.new? = some defaultTV ∧
    defaultTV.board.pieces = startPieces ∧
    startPieces.length = 64 ∧
    (startPieces.filterMap id).length = 32 ∧
    defaultTV.board_orientation = PlayerKind.White ∧
    defaultTV.players = [] ∧
    defaultTV.last_move = "" := by
  decide

/-- C8: for every square index `n < 64`, the background color is one of
exactly two fixed color constants, and the code's selector
`(n + n / 8) & 1` agrees with the parity `(n % 8 + n / 8) % 2` of
file index plus rank index. -/
theorem lichess_checkerboard_parity (n : Nat) (_hn : n < 64) :
    cellChannel n =
      (if (n % 8 + n / 8) % 2 = 0 then (195, 160, 130) else (242, 225, 195)) ∧
    (cellChannel n = (195, 160, 130) ∨ cellChannel n = (242, 225, 195)) := by
  have h1 : (n + n / 8) &&& 1 = (n + n / 8) % 2 := Nat.and_one_is_mod _
  have h2 : (n + n / 8) % 2 = (n % 8 + n / 8) % 2 := by omega
  unfold cellChannel
  rw [h1, h2]
  refine ⟨rfl, ?_⟩
  split
  · exact Or.inl rfl
  · exact Or.inr rfl

/-- Witness for C8 at square index 5. -/
theorem lichess_checkerboard_parity_spot :
    cellChannel 5 =
      (if (5 % 8 + 5 / 8) % 2 = 0 then (195, 160, 130) else (242, 225, 195)) ∧
    (cellChannel 5 = (195, 160, 130) ∨ cellChannel 5 = (242, 225, 195)) :=
  lichess_checkerboard_parity 5 (by decide)

/-- C3 (amended): a chunk that is not valid UTF-8 makes `write` panic
at the `from_utf8(..).unwrap()` (modelled as `none`) for every state
and every notation parser — the failure is unrecoverable, not a skipped
`EncodingError`. -/
theorem lichess_invalid_utf8_write_none (fenP : String → Option BoardState)
    (st : LichessTV) (data : List Nat) (h : utf8Decode data = none) :
    write fenP st data = none := by
  simp [write, h]

/-- Witness for C3's amended theorem at the one-byte chunk `0xFF`. -/
theorem lichess_invalid_utf8_write_none_spot :
    write fromFenM defaultTV [255] = none :=
  lichess_invalid_utf8_write_none fromFenM defaultTV [255] (by rfl)

/-- C3 counterexample: the chunk `[0xC3, 0x28]` is not valid UTF-8, and
processing it panics (modelled `none`) instead of recoverably skipping
the chunk as the claim states. -/
theorem lichess_invalid_utf8_panic :
    utf8Decode [0xC3, 0x28] = none ∧
    write fromFenM defaultTV [0xC3, 0x28] = none :=
  ⟨rfl, rfl⟩

/-- C10: whenever `write` returns normally (does not panic), it returns
`Ok(data.len())` — never an error value — for every notation parser,
state, and chunk. -/
theorem lichess_write_ok_length (fenP : String → Option BoardState)
    (st st' : LichessTV) (data : List Nat) (r : Except WriteError Nat)
    (h : write fenP st data = some (st', r)) :
    r = Except.ok data.length := by
  simp only [write, Option.bind_eq_some, Option.map_eq_some'] at h
  obtain ⟨cs, _, ev, _, s2, _, heq⟩ := h
  cases heq
  rfl

/-- Witness for C10 on a concrete single-event chunk. -/
theorem lichess_write_ok_length_spot :
    (Except.ok (asciiBytes (updLine1 ++ "\n")).length : Except WriteError Nat) =
      Except.ok (asciiBytes (updLine1 ++ "\n")).length :=
  lichess_write_ok_length fromFenM defaultTV updState1
    (asciiBytes (updLine1 ++ "\n"))
    (Except.ok (asciiBytes (updLine1 ++ "\n")).length) (by rfl)

/-- C1 (amended): for a Game Summary event, when the suffixed position
text fails to parse the apply panics at the `unwrap` (modelled `none`)
— an unrecoverable failure, with no field mutated before the panic —
and on a successful parse `board`, `board_orientation` and `players`
are all replaced together in the same apply, every other field keeping
its previous value. -/
theorem lichess_summary_apply_atomic (fenP : String → Option BoardState)
    (st : LichessTV) (s : FeaturedTVGameSummary) :
    (fenP (s.fen ++ " w c - 1 1") = none →
      applyFeed fenP st (FeaturedTVGameFeed.FeaturedTVGameSummary s) = none) ∧
    ∀ b : BoardState, fenP (s.fen ++ " w c - 1 1") = some b →
      applyFeed fenP st (FeaturedTVGameFeed.FeaturedTVGameSummary s) =
        some { st with
                board := b
                board_orientation := s.orientation
                players := s.players } := by
  constructor
  · intro h
    simp [applyFeed, h]
  · intro b h
    simp [applyFeed, h]

/-- Witness for C1's amended theorem: a summary whose position text
parses replaces board, orientation and roster together. -/
theorem lichess_summary_apply_atomic_spot :
    applyFeed fromFenM defaultTV
        (FeaturedTVGameFeed.FeaturedTVGameSummary sampleSummary) =
      some { defaultTV with
              board := ⟨startPieces⟩
              board_orientation := PlayerKind.Black
              players := [samplePlayer] } :=
  (lichess_summary_apply_atomic fromFenM defaultTV sampleSummary).2
    ⟨startPieces⟩ (by decide)

/-- C1 counterexample: for the concrete summary `badSummary`, whose
position text fails to parse, the apply panics (modelled `none`)
instead of signalling a recoverable `ApplyError::BadPosition` as the
claim states. -/
theorem lichess_summary_badfen_panic :
    fromFenM (badSummary.fen ++ " w c - 1 1") = none ∧
    applyFeed fromFenM defaultTV
      (FeaturedTVGameFeed.FeaturedTVGameSummary badSummary) = none := by
  decide

/-- A JSON document whose discriminator field `t` is not `featured` or
`fen` (or that has no string `t` field at all) decodes to no event. -/
theorem feedFromJson_unknown_tag (j : Json) (h1 : tagOf j ≠ some "featured")
    (h2 : tagOf j ≠ some "fen") : feedFromJson j = none := by
  cases j with
  | obj fs =>
    cases hlt : lookupField "t" fs with
    | none => simp [feedFromJson, hlt]
    | some v =>
      cases v with
      | str t =>
        have ht : tagOf (Json.obj fs) = some t := by simp [tagOf, hlt]
        rw [ht] at h1 h2
        have ht1 : t ≠ "featured" := fun e => h1 (by rw [e])
        have ht2 : t ≠ "fen" := fun e => h2 (by rw [e])
        cases hld : lookupField "d" fs with
        | none => simp [feedFromJson, hlt, hld]
        | some d => simp [feedFromJson, hlt, hld, ht1, ht2]
      | null => simp [feedFromJson, hlt]
      | bool b => simp [feedFromJson, hlt]
      | num n => simp [feedFromJson, hlt]
      | arr es => simp [feedFromJson, hlt]
      | obj fs2 => simp [feedFromJson, hlt]
  | null => rfl
  | bool b => rfl
  | num n => rfl
  | str s => rfl
  | arr es => rfl

/-- C2 (amended): for every chunk whose text parses as a JSON document
with an unrecognized (or absent) discriminator, the decode fails and
`write` panics at the `unwrap` (modelled `none`) for every prior state
— an unrecoverable failure, not a recoverable `UnknownEventKind`
skip. -/
theorem lichess_unknown_tag_no_event (fenP : String → Option BoardState)
    (st : LichessTV) (data : List Nat) (cs : List Char) (j : Json)
    (hu : utf8Decode data = some cs) (hj : parseJsonDoc cs = some j)
    (h1 : tagOf j ≠ some "featured") (h2 : tagOf j ≠ some "fen") :
    write fenP st data = none := by
  have hf : feedFromJson j = none := feedFromJson_unknown_tag j h1 h2
  simp [write, hu, decodeFeed, hj, hf]

/-- Witness for C2's amended theorem on a concrete unknown-tag line. -/
theorem lichess_unknown_tag_no_event_spot :
    write fromFenM defaultTV (asciiBytes anotherTagLine) = none :=
  lichess_unknown_tag_no_event fromFenM defaultTV (asciiBytes anotherTagLine)
    anotherTagLine.data (Json.obj [("t", Json.str "x"), ("d", Json.num 0)])
    (by rfl) (by rfl) (by decide) (by decide)

/-- C2 counterexample: the line with discriminator `endGame` makes the
whole `write` call panic (modelled `none`) instead of decoding to a
recoverable `UnknownEventKind` and being skipped as the claim
states. -/
theorem lichess_unknown_tag_panic :
    (parseJsonDoc unknownTagLine.data).bind tagOf = some "endGame" ∧
    write fromFenM defaultTV (asciiBytes unknownTagLine) = none :=
  ⟨rfl, rfl⟩

/-- C4 (amended): the per-chunk pipeline performs no newline splitting
and no partial-line buffering: the entire chunk is passed to the JSON
decoder as a single document, so a chunk holding exactly one
(newline-terminated) event is applied, while a chunk holding two
newline-terminated events, or a proper prefix of an event, makes
`write` panic (modelled `none`) for every prior state. -/
theorem lichess_chunk_single_document (st : LichessTV) :
    write fromFenM st (asciiBytes (updLine1 ++ "\n" ++ updLine2 ++ "\n")) = none ∧
    write fromFenM st (asciiBytes partialLine) = none ∧
    write fromFenM defaultTV (asciiBytes (updLine1 ++ "\n")) =
      some (updState1, Except.ok (asciiBytes (updLine1 ++ "\n")).length) := by
  exact ⟨rfl, rfl, rfl⟩

/-- C4 counterexample: each of the two newline-terminated lines decodes
to a well-formed Position Update event on its own, yet `write` on the
chunk holding both panics (modelled `none`) instead of invoking the
decoder once per complete line as the claim states. -/
theorem lichess_two_events_panic :
    decodeFeed updLine1.data =
      some (FeaturedTVGameFeed.FeaturedTVGameUpdate updEvent1) ∧
    decodeFeed updLine2.data =
      some (FeaturedTVGameFeed.FeaturedTVGameUpdate updEvent2) ∧
    write fromFenM defaultTV (asciiBytes (updLine1 ++ "\n" ++ updLine2 ++ "\n")) =
      none :=
  ⟨rfl, rfl, rfl⟩

/-- C5: the apply step consults the notation parser at exactly the
event's position text with the literal suffix `" w c - 1 1"` appended
for a Game Summary, and `" c - 1 1"` appended for a Position Update:
two parsers that agree on that one string produce the same apply
result. -/
theorem lichess_fen_suffix_query (f g : String → Option BoardState)
    (st : LichessTV) :
    (∀ s : FeaturedTVGameSummary,
      f (s.fen ++ " w c - 1 1") = g (s.fen ++ " w c - 1 1") →
      applyFeed f st (FeaturedTVGameFeed.FeaturedTVGameSummary s) =
        applyFeed g st (FeaturedTVGameFeed.FeaturedTVGameSummary s)) ∧
    (∀ u : FeaturedTVGameUpdate,
      f (u.fen ++ " c - 1 1") = g (u.fen ++ " c - 1 1") →
      applyFeed f st (FeaturedTVGameFeed.FeaturedTVGameUpdate u) =
        applyFeed g st (FeaturedTVGameFeed.FeaturedTVGameUpdate u)) := by
  constructor
  · intro s h
    simp only [applyFeed]
    rw [h]
  · intro u h
    simp only [applyFeed]
    rw [h]

/-- Witness for C5: the full parser and the parser answering only the
suffixed query of `sampleSummary` give the same apply result. -/
theorem lichess_fen_suffix_query_spot :
    applyFeed fromFenM defaultTV
        (FeaturedTVGameFeed.FeaturedTVGameSummary sampleSummary) =
      applyFeed gSpot defaultTV
        (FeaturedTVGameFeed.FeaturedTVGameSummary sampleSummary) :=
  (lichess_fen_suffix_query fromFenM gSpot defaultTV).1 sampleSummary
    (by simp [gSpot])

/-- C6: a Position Update whose suffixed position text parses replaces
exactly `board`, `last_move`, `white_clock` and `black_clock` with the
event's values (clocks copied verbatim), while `board_orientation` and
`players` keep their previous values. -/
theorem lichess_update_apply_fields (fenP : String → Option BoardState)
    (st : LichessTV) (u : FeaturedTVGameUpdate) (b : BoardState)
    (h : fenP (u.fen ++ " c - 1 1") = some b) :
    applyFeed fenP st (FeaturedTVGameFeed.FeaturedTVGameUpdate u) =
      some { board := b
             last_move := u.last_move
             white_clock := u.white_clock
             black_clock := u.black_clock
             players := st.players
             board_orientation := st.board_orientation } := by
  simp [applyFeed, h]

/-- Witness for C6 on the concrete e2e4 update. -/
theorem lichess_update_apply_fields_spot :
    applyFeed fromFenM defaultTV
        (FeaturedTVGameFeed.FeaturedTVGameUpdate updEvent1) =
      some updState1 :=
  lichess_update_apply_fields fromFenM defaultTV updEvent1 ⟨afterE4Pieces⟩
    (by decide)

/-- C9 (amended): for a region of width ≥ 24 and height ≥ 8, square `n`
(n < 64) is drawn at column `w / 2 - 12 + 3 * (n % 8)` and row
`h / 2 - 3 + n / 8`: each cell is 3 columns wide and 1 row tall and the
grid is centered horizontally, but the anchor row is `h / 2 - 3` — one
row below the vertically centered `h / 2 - 4` — because the loop
advances the row before drawing square 0. -/
theorem lichess_cell_position_formula (w h n : Nat) (_hw : 24 ≤ w)
    (hh : 8 ≤ h) (_hn : n < 64) :
    drawPos w h n = (h / 2 - 3 + n / 8, w / 2 - 12 + 3 * (n % 8)) := by
  clear _hn _hw
  induction n with
  | zero =>
    simp only [drawPos, boardStep, Nat.zero_mod, reduceIte, Prod.mk.injEq]
    omega
  | succ n ih =>
    simp only [drawPos, boardStep, ih, Prod.mk.injEq]
    by_cases hc : (n + 1) % 8 = 0
    · simp only [hc, reduceIte, Prod.mk.injEq]
      omega
    · simp only [hc, reduceIte, Prod.mk.injEq]
      omega

/-- Witness for C9's amended theorem at region 80×24, square 9. -/
theorem lichess_cell_position_formula_spot :
    drawPos 80 24 9 = (24 / 2 - 3 + 9 / 8, 80 / 2 - 12 + 3 * (9 % 8)) :=
  lichess_cell_position_formula 80 24 9 (by decide) (by decide) (by decide)

/-- C9 counterexample: in an 80×24 region the anchor (top-left, index
0) square is drawn at row `24 / 2 - 3 = 9`, not at the vertically
centered row `24 / 2 - 4 = 8` the claim states. -/
theorem lichess_anchor_row_off_by_one :
    drawPos 80 24 0 = (9, 28) ∧
    drawPos 80 24 0 ≠ (24 / 2 - 4, 80 / 2 - 12) := by
  decide

end WatchLichessTV
